import Mathlib

/-!
Verification of the clinical dosage calculation engine of the thyroid-dosage
web application.

The definitions below are a shallow embedding of
`src/utils/calculators/dosageCalculator.ts` together with the constants of
`src/constants/medical.constants.ts` and the data model of
`src/types/medical.ts`.  JavaScript numbers are modelled as rationals (ℚ),
`Math.round` as `jsRound` (floor of x + 1/2, the JS half-up rule),
optional fields as `Option`, thrown errors as `Except.error`, and the
human-readable alert strings as an enumeration `Alert` with one constructor
per `alerts.push` site (the TypeScript `symptomAlert` string is just the
join of that list and is not modelled separately; the free-text
`medicalConditionsSummary` and the `name`/`reportDate`/`otherIssues`
string fields are likewise outside the scope of the verified claims).
-/

/-- The four hormone measurements used by the calculators
(`'FT3' | 'FT4' | 'T3' | 'T4'` in `types/medical.ts`). -/
inductive Hormone
  | FT3
  | FT4
  | T3
  | T4
deriving DecidableEq

/-- A reference range from `THYROID_REFERENCE_RANGES` (units omitted: they are
display-only strings). -/
structure RefRange where
  low : ℚ
  high : ℚ
deriving DecidableEq

/-- `THYROID_REFERENCE_RANGES` from `medical.constants.ts`
(the TSH entry is not consulted by either calculator and is omitted). -/
@[simp] def THYROID_REFERENCE_RANGES : Hormone → RefRange
  | .T3 => ⟨80, 200⟩
  | .T4 => ⟨5.0, 12.0⟩
  | .FT3 => ⟨2.3, 4.2⟩
  | .FT4 => ⟨0.8, 1.8⟩

/-- `AVAILABLE_DOSES`: the fixed ascending ladder of 12.5 mcg increments. -/
@[simp] def AVAILABLE_DOSES : List ℚ :=
  [25, 37.5, 50, 62.5, 75, 87.5, 100, 112.5, 125, 137.5, 150, 162.5, 175, 187.5, 200]

/-- `COMMERCIAL_TABLETS`: the non-uniform list of real-world tablet sizes. -/
@[simp] def COMMERCIAL_TABLETS : List ℚ :=
  [25, 50, 75, 88, 100, 112, 125, 137, 150, 175, 200]

/-- `'mild' | 'moderate' | 'severe'`. -/
inductive Severity
  | mild
  | moderate
  | severe
deriving DecidableEq

/-- `liverDiseaseType` variants. -/
inductive LiverDiseaseType
  | cirrhosis
  | cholestatic
  | nafld
  | hepatitis
  | post_transplant
  | other
deriving DecidableEq

/-- `kidneyDiseaseStage` variants. -/
inductive KidneyDiseaseStage
  | stage1
  | stage2
  | stage3
  | stage4
  | stage5
  | esrd
  | postTransplant
  | other
deriving DecidableEq

/-- `gender` (informational only, never read by the calculators). -/
inductive Gender
  | male
  | female
deriving DecidableEq

/-- The optional `symptoms` record of `PatientProfile`. -/
structure Symptoms where
  headache : Bool := false
  anxiousOrRestless : Bool := false
deriving DecidableEq

/-- `PatientProfile` from `types/medical.ts`.  Optional (`?:` or `| null`)
fields are `Option`s; `none` plays the role of both `undefined` and `null`
(the source only distinguishes them in one alert-wording branch, modelled
below in `diagnosisAlerts` by treating them alike, exactly as the
`undefined || null` test does).  Field defaults exist only to shorten
concrete test profiles; they are not part of the TypeScript type. -/
structure PatientProfile where
  age : Option ℚ := none
  weightKg : Option ℚ := none
  gender : Option Gender := none
  isPregnant : Bool := false
  trimester : Option ℕ := none
  hasHighRiskHeartDisease : Option Bool := none
  hasLowRiskHeartDisease : Option Bool := none
  hasOsteoporosis : Bool := false
  hasAdrenalInsufficiency : Bool := false
  hasGIAbsorptionIssues : Bool := false
  onEstrogenTherapy : Bool := false
  hasLiverDisease : Option Bool := none
  liverDiseaseType : Option LiverDiseaseType := none
  hasKidneyDisease : Option Bool := none
  kidneyDiseaseStage : Option KidneyDiseaseStage := none
  currentTSH : Option ℚ := none
  currentT3 : Option ℚ := none
  currentT4 : Option ℚ := none
  currentFT3 : Option ℚ := none
  currentFT4 : Option ℚ := none
  currentDose : Option ℚ := none
  hasHypothyroidDiagnosis : Option Bool := none
  symptoms : Option Symptoms := none
deriving DecidableEq

/-- One constructor per `alerts.push(...)` site in `dosageCalculator.ts`,
in source order (levothyroxine sites first, then the shared hormone
adjustment sites, then the methimazole sites). -/
inductive Alert
  | euthyroidNoTherapy
  | tshAbove10DespiteNegativeDiagnosis
  | notFormallyDiagnosed
  | tshAbove10UnknownDiagnosis
  | unknownDiagnosisStatus
  | severeHypothyroidism
  | moderateHypothyroidism
  | mildHypothyroidism
  | pregnancyT1
  | pregnancyT2
  | pregnancyT3
  | pregnancyUnspecified
  | targetTshT1
  | targetTshT23
  | tshExceedsTarget
  | highRiskHeart
  | highRiskHeartSymptoms
  | cardiacDoseCap
  | lowRiskHeart
  | adrenalCritical
  | osteoporosisReduction
  | estrogenIncrease
  | giIncrease
  | cirrhosisAlert
  | cholestaticAlert
  | nafldAlert
  | hepatitisAlert
  | postLiverTransplantAlert
  | unspecifiedLiverAlert
  | severeCKD
  | moderateCKD
  | mildCKD
  | postKidneyTransplant
  | unspecifiedKidney
  | lowBodyWeight
  | elderlyCap
  | overtreatedWarning
  | gradualTitration
  | symptomReduction
  | lowFT4
  | lowFT3
  | lowT4
  | lowT3
  | tshNotSuppressed
  | missingHormoneValues
  | subclinicalTreat
  | subclinicalNoTreat
  | overtConfirmed
  | cannotDetermineSeverity
  | moderateSevereUpgrade
  | verySevereConsultSpecialist
  | pediatricSevereDosing
  | pediatricStandardDosing
  | mildElevatedT3Dosing
  | mildStandardDosing
  | mildConservativeDosing
  | moderateHighFT3Dosing
  | moderateStandardDosing
  | severeElderlyCardiacDosing
  | severeStandardDosing
  | titrationGuidance
deriving DecidableEq

/-- `DosageResult` from `types/medical.ts`.  Fields that a given return
statement does not mention are `undefined` in the source and carry their
default here (`none`, `[]`, `false`). -/
structure DosageResult where
  dose : ℚ
  nearestTablet : Option ℚ := none
  alerts : List Alert := []
  severity : Option Severity := none
  followUpWeeks : Option ℕ := none
  requiresHormoneData : Bool := false
  missingHormoneFields : List Hormone := []
deriving DecidableEq

/-- The `throw new Error(...)` sites of the two calculators. -/
inductive DoseError
  | weightRequired
  | tshRequired
  | tshTooLow
  | tshLowWithSymptoms
  | methimazoleTshRequired
deriving DecidableEq

/-- `Math.round`: JavaScript rounds half toward +infinity, i.e. ⌊x + 1/2⌋. -/
def jsRound (x : ℚ) : ℤ := ⌊x + 1 / 2⌋

/-- `Math.abs`. -/
def jsAbs (x : ℚ) : ℚ := if x < 0 then -x else x

theorem jsAbs_eq_abs (x : ℚ) : jsAbs x = |x| := by
  unfold jsAbs
  rcases lt_or_le x 0 with h | h
  · rw [if_pos h, abs_of_neg h]
  · rw [if_neg (not_lt.mpr h), abs_of_nonneg h]

/-- `Math.sign`. -/
def jsSign (x : ℚ) : ℚ := if 0 < x then 1 else if x < 0 then -1 else 0

/-- The clamp `Math.min(Math.max(predictedDose, 25), 200)` shared by both
rounding services. -/
def clampDose (x : ℚ) : ℚ := min (max x 25) 200

/-- The bracket-searching loop of `getNearestSafeDose`: walk the ladder,
remembering the last value ≤ dose as `lower`, and break at the first value
≥ dose, which becomes `upper`. -/
def scanBrackets (dose : ℚ) : List ℚ → ℚ → ℚ → ℚ × ℚ
  | [], lower, upper => (lower, upper)
  | a :: rest, lower, upper =>
    let lower' := if a ≤ dose then a else lower
    if dose ≤ a then (lower', a) else scanBrackets dose rest lower' upper

/-- `getNearestSafeDose` (the `isNaN` guard has no counterpart on ℚ). -/
def getNearestSafeDose (predictedDose : ℚ) : ℚ :=
  let dose := clampDose predictedDose
  let lu := scanBrackets dose AVAILABLE_DOSES (AVAILABLE_DOSES.headD 0)
    (AVAILABLE_DOSES.getLastD 0)
  let distToLower := jsAbs (dose - lu.1)
  let distToUpper := jsAbs (lu.2 - dose)
  if distToLower ≤ 6.25 ∧ 1 < distToUpper then lu.1
  else if distToUpper ≤ 1 then lu.2
  else if distToLower ≤ distToUpper then lu.1 else lu.2

/-- The linear nearest-neighbor loop of `getNearestCommercialTablet`
(strict `<` comparison, so the first minimum encountered wins). -/
def nearestScan (dose : ℚ) : List ℚ → ℚ → ℚ → ℚ
  | [], best, _ => best
  | t :: rest, best, bestDist =>
    if jsAbs (dose - t) < bestDist then nearestScan dose rest t (jsAbs (dose - t))
    else nearestScan dose rest best bestDist

/-- `getNearestCommercialTablet`. -/
def getNearestCommercialTablet (predictedDose : ℚ) : ℚ :=
  let dose := clampDose predictedDose
  nearestScan dose COMMERCIAL_TABLETS (COMMERCIAL_TABLETS.headD 0)
    (jsAbs (dose - COMMERCIAL_TABLETS.headD 0))

example : getNearestSafeDose 99 = 100 := by
  norm_num [getNearestSafeDose, clampDose, scanBrackets, jsAbs]
example : getNearestSafeDose 92 = 87.5 := by
  norm_num [getNearestSafeDose, clampDose, scanBrackets, jsAbs]
example : getNearestCommercialTablet 92 = 88 := by
  norm_num [getNearestCommercialTablet, clampDose, nearestScan, jsAbs]

/-- The severity-tiered multipliers and condition adjustments of
`DOSAGE_MULTIPLIERS` (flattened; names follow the nested object keys). -/
@[simp] def DOSAGE_MULTIPLIERS_mild : ℚ := 1.2

@[simp] def DOSAGE_MULTIPLIERS_moderate : ℚ := 1.4

@[simp] def DOSAGE_MULTIPLIERS_severe : ℚ := 1.6

@[simp] def DOSAGE_MULTIPLIERS_pregnancy_trimester1 : ℚ := 1.5

@[simp] def DOSAGE_MULTIPLIERS_pregnancy_trimester2 : ℚ := 1.4

@[simp] def DOSAGE_MULTIPLIERS_pregnancy_trimester3 : ℚ := 1.3

@[simp] def DOSAGE_MULTIPLIERS_pregnancy_unspecified : ℚ := 1.4

@[simp] def DOSAGE_MULTIPLIERS_osteoporosis : ℚ := 0.9

@[simp] def DOSAGE_MULTIPLIERS_estrogenTherapy : ℚ := 1.15

@[simp] def DOSAGE_MULTIPLIERS_giAbsorptionIssues : ℚ := 1.2

@[simp] def DOSAGE_MULTIPLIERS_liverDisease_cirrhosis : ℚ := 0.9

@[simp] def DOSAGE_MULTIPLIERS_liverDisease_cholestatic : ℚ := 1.15

@[simp] def DOSAGE_MULTIPLIERS_liverDisease_nafld : ℚ := 1.1

@[simp] def DOSAGE_MULTIPLIERS_liverDisease_unspecified : ℚ := 0.9

@[simp] def DOSAGE_MULTIPLIERS_kidneyDisease_severe : ℚ := 0.85

@[simp] def DOSAGE_MULTIPLIERS_kidneyDisease_moderate : ℚ := 0.9

@[simp] def DOSAGE_MULTIPLIERS_kidneyDisease_unspecified : ℚ := 0.9

@[simp] def DOSAGE_MULTIPLIERS_lowWeight : ℚ := 0.9

@[simp] def DOSAGE_MULTIPLIERS_heartDisease_highRisk : ℚ := 0.75

@[simp] def DOSAGE_MULTIPLIERS_heartDisease_lowRisk : ℚ := 0.9

/-- `SAFETY_LIMITS` (flattened). -/
@[simp] def SAFETY_LIMITS_minimumDose : ℚ := 25

@[simp] def SAFETY_LIMITS_maximumDose : ℚ := 300

@[simp] def SAFETY_LIMITS_elderlyMaxDose : ℚ := 50

@[simp] def SAFETY_LIMITS_lowWeightThreshold : ℚ := 45

@[simp] def SAFETY_LIMITS_elderlyAgeThreshold : ℚ := 60

@[simp] def SAFETY_LIMITS_lowTSHThreshold : ℚ := 0.1

@[simp] def SAFETY_LIMITS_maxDoseChange_standard : ℚ := 25

@[simp] def SAFETY_LIMITS_maxDoseChange_conservative : ℚ := 12.5

@[simp] def SAFETY_LIMITS_cardiacMaximumDose : ℚ := 100

/-- `profile.symptoms?.headache ?? false`. -/
def symptomHeadache (profile : PatientProfile) : Bool :=
  (profile.symptoms.map Symptoms.headache).getD false

/-- `profile.symptoms?.anxiousOrRestless ?? false`. -/
def symptomAnxious (profile : PatientProfile) : Bool :=
  (profile.symptoms.map Symptoms.anxiousOrRestless).getD false

/-- `symptomCount` of step 8 of `calculateLevothyroxineDose`. -/
def symptomCount (profile : PatientProfile) : ℕ :=
  (if symptomHeadache profile then 1 else 0) +
    (if symptomAnxious profile then 1 else 0)

/-- The body of the inner helper `applyLowValueAdjustment` of
`calculateHormoneAdjustmentFactor`: when the value is present and below the
reference low, multiply the running factor by `1 + increasePercent` and
append the corresponding alert. -/
def applyLowValueAdjustment (value : Option ℚ) (key : Hormone)
    (increasePercent : ℚ) (alert : Alert) (acc : ℚ × List Alert) :
    ℚ × List Alert :=
  match value with
  | none => acc
  | some v =>
    if v < (THYROID_REFERENCE_RANGES key).low then
      (acc.1 * (1 + increasePercent), acc.2 ++ [alert])
    else acc

/-- `calculateHormoneAdjustmentFactor`: the four checks applied in source
order (FT4, FT3, T4, T3) to the running factor starting at 1, returning the
factor together with the alerts it pushed. -/
def calculateHormoneAdjustmentFactor (profile : PatientProfile) :
    ℚ × List Alert :=
  applyLowValueAdjustment profile.currentT3 .T3 0.05 .lowT3
    (applyLowValueAdjustment profile.currentT4 .T4 0.1 .lowT4
      (applyLowValueAdjustment profile.currentFT3 .FT3 0.1 .lowFT3
        (applyLowValueAdjustment profile.currentFT4 .FT4 0.15 .lowFT4
          (1, []))))

/-- Step 2 of `calculateLevothyroxineDose`: the diagnosis-consistency note
(wording depends on whether the diagnosis flag is `false` or absent and on
whether TSH exceeds 10). -/
def diagnosisAlerts (profile : PatientProfile) (tsh : ℚ) : List Alert :=
  match profile.hasHypothyroidDiagnosis with
  | some false =>
    if 10 < tsh then [.tshAbove10DespiteNegativeDiagnosis]
    else [.notFormallyDiagnosed]
  | none =>
    if 10 < tsh then [.tshAbove10UnknownDiagnosis]
    else [.unknownDiagnosisStatus]
  | some true => []

/-- Step 3 of `calculateLevothyroxineDose`: severity-tiered base dose
(multiplier × weight) with its alert; 0 when no TSH bracket matches. -/
def baseDoseFor (tsh weightKg : ℚ) : ℚ × List Alert :=
  if 20 ≤ tsh then (DOSAGE_MULTIPLIERS_severe * weightKg, [.severeHypothyroidism])
  else if 10 ≤ tsh then (DOSAGE_MULTIPLIERS_moderate * weightKg, [.moderateHypothyroidism])
  else if 4.5 ≤ tsh then (DOSAGE_MULTIPLIERS_mild * weightKg, [.mildHypothyroidism])
  else (0, [])

/-- Pregnancy adjustment (trimester-specific multiplier). -/
def applyPregnancy (profile : PatientProfile) (d : ℚ) : ℚ × List Alert :=
  if profile.isPregnant then
    match profile.trimester with
    | some 1 => (d * DOSAGE_MULTIPLIERS_pregnancy_trimester1, [.pregnancyT1])
    | some 2 => (d * DOSAGE_MULTIPLIERS_pregnancy_trimester2, [.pregnancyT2])
    | some 3 => (d * DOSAGE_MULTIPLIERS_pregnancy_trimester3, [.pregnancyT3])
    | _ => (d * DOSAGE_MULTIPLIERS_pregnancy_unspecified, [.pregnancyUnspecified])
  else (d, [])

/-- TSH target assessment: informational alerts only, never a dose change. -/
def targetTSHAlerts (profile : PatientProfile) (tsh : ℚ) : List Alert :=
  let targetAlerts : List Alert :=
    if profile.isPregnant then
      if profile.trimester = some 1 then [.targetTshT1] else [.targetTshT23]
    else []
  let targetTSH : ℚ :=
    if profile.isPregnant then
      if profile.trimester = some 1 then 2.5 else 3.0
    else 4.5
  targetAlerts ++ (if targetTSH < tsh then [.tshExceedsTarget] else [])

/-- Heart disease adjustments: high risk ×0.75 then hard cap at the cardiac
maximum; low risk ×0.9; anxiety with high risk adds an urgent alert. -/
def applyHeartDisease (profile : PatientProfile) (d : ℚ) : ℚ × List Alert :=
  if profile.hasHighRiskHeartDisease.getD false then
    let d1 := d * DOSAGE_MULTIPLIERS_heartDisease_highRisk
    let symptomAlerts : List Alert :=
      if symptomAnxious profile then [.highRiskHeartSymptoms] else []
    if SAFETY_LIMITS_cardiacMaximumDose < d1 then
      (SAFETY_LIMITS_cardiacMaximumDose,
        [.highRiskHeart] ++ symptomAlerts ++ [.cardiacDoseCap])
    else (d1, [.highRiskHeart] ++ symptomAlerts)
  else if profile.hasLowRiskHeartDisease.getD false then
    (d * DOSAGE_MULTIPLIERS_heartDisease_lowRisk, [.lowRiskHeart])
  else (d, [])

/-- Osteoporosis ×0.9. -/
def applyOsteoporosis (profile : PatientProfile) (d : ℚ) : ℚ × List Alert :=
  if profile.hasOsteoporosis then
    (d * DOSAGE_MULTIPLIERS_osteoporosis, [.osteoporosisReduction])
  else (d, [])

/-- Estrogen therapy ×1.15. -/
def applyEstrogen (profile : PatientProfile) (d : ℚ) : ℚ × List Alert :=
  if profile.onEstrogenTherapy then
    (d * DOSAGE_MULTIPLIERS_estrogenTherapy, [.estrogenIncrease])
  else (d, [])

/-- GI absorption issues ×1.2. -/
def applyGI (profile : PatientProfile) (d : ℚ) : ℚ × List Alert :=
  if profile.hasGIAbsorptionIssues then
    (d * DOSAGE_MULTIPLIERS_giAbsorptionIssues, [.giIncrease])
  else (d, [])

/-- Liver disease logic (mutually exclusive by type, unspecified/other
falls back to the conservative 10% reduction). -/
def applyLiverDisease (profile : PatientProfile) (d : ℚ) : ℚ × List Alert :=
  if profile.hasLiverDisease.getD false then
    match profile.liverDiseaseType with
    | some .cirrhosis => (d * DOSAGE_MULTIPLIERS_liverDisease_cirrhosis, [.cirrhosisAlert])
    | some .cholestatic => (d * DOSAGE_MULTIPLIERS_liverDisease_cholestatic, [.cholestaticAlert])
    | some .nafld => (d * DOSAGE_MULTIPLIERS_liverDisease_nafld, [.nafldAlert])
    | some .hepatitis => (d, [.hepatitisAlert])
    | some .post_transplant => (d, [.postLiverTransplantAlert])
    | _ => (d * DOSAGE_MULTIPLIERS_liverDisease_unspecified, [.unspecifiedLiverAlert])
  else (d, [])

/-- Kidney disease logic (mutually exclusive by stage). -/
def applyKidneyDisease (profile : PatientProfile) (d : ℚ) : ℚ × List Alert :=
  if profile.hasKidneyDisease.getD false then
    match profile.kidneyDiseaseStage with
    | some .stage4 => (d * DOSAGE_MULTIPLIERS_kidneyDisease_severe, [.severeCKD])
    | some .stage5 => (d * DOSAGE_MULTIPLIERS_kidneyDisease_severe, [.severeCKD])
    | some .esrd => (d * DOSAGE_MULTIPLIERS_kidneyDisease_severe, [.severeCKD])
    | some .stage3 => (d * DOSAGE_MULTIPLIERS_kidneyDisease_moderate, [.moderateCKD])
    | some .stage1 => (d, [.mildCKD])
    | some .stage2 => (d, [.mildCKD])
    | some .postTransplant => (d, [.postKidneyTransplant])
    | _ => (d * DOSAGE_MULTIPLIERS_kidneyDisease_unspecified, [.unspecifiedKidney])
  else (d, [])

/-- Step 7 of `calculateLevothyroxineDose`: gradual titration — when a
current dose is known, the change from it is clamped to the maximum delta
(conservative for high-risk cardiac or osteoporosis patients), preserving
the direction of change. -/
def applyTitration (profile : PatientProfile) (d : ℚ) : ℚ × List Alert :=
  match profile.currentDose with
  | none => (d, [])
  | some currentDose =>
    let maxChange : ℚ :=
      if profile.hasHighRiskHeartDisease.getD false then
        SAFETY_LIMITS_maxDoseChange_conservative
      else if profile.hasOsteoporosis then
        SAFETY_LIMITS_maxDoseChange_conservative
      else SAFETY_LIMITS_maxDoseChange_standard
    if maxChange < jsAbs (d - currentDose) then
      (currentDose + jsSign (d - currentDose) * maxChange, [.gradualTitration])
    else (d, [])

/-- Step 8 of `calculateLevothyroxineDose`: symptom-based reduction
(12.5 mcg for one symptom, 25 mcg for both), floored at 25 mcg. -/
def applySymptoms (profile : PatientProfile) (d : ℚ) : ℚ × List Alert :=
  let c := symptomCount profile
  if 0 < c then
    let reductionAmount : ℚ := if c = 1 then 12.5 else if c = 2 then 25 else 0
    (max 25 (d - reductionAmount), [.symptomReduction])
  else (d, [])

/-- Steps 6–9 of `calculateLevothyroxineDose` (everything after the elderly
cap): low-TSH safety check, titration limiting, symptom reduction, the
critical low-TSH-with-symptoms re-check, final clamp to [25, 300], rounding
to the safe-dose ladder and the commercial-tablet lookup. -/
def finalStages (profile : PatientProfile) (tsh d6 : ℚ)
    (alertsBefore : List Alert) : Except DoseError DosageResult :=
  if tsh < SAFETY_LIMITS_lowTSHThreshold ∧
      profile.hasHypothyroidDiagnosis.getD false = false then
    .error .tshTooLow
  else
    let warn : List Alert :=
      if tsh < SAFETY_LIMITS_lowTSHThreshold then [.overtreatedWarning] else []
    let ti := applyTitration profile d6
    let sy := applySymptoms profile ti.1
    if tsh < SAFETY_LIMITS_lowTSHThreshold ∧ 0 < symptomCount profile then
      .error .tshLowWithSymptoms
    else
      let d9 := max SAFETY_LIMITS_minimumDose (min sy.1 SAFETY_LIMITS_maximumDose)
      .ok { dose := getNearestSafeDose d9,
            nearestTablet := some (getNearestCommercialTablet d9),
            alerts := alertsBefore ++ warn ++ ti.2 ++ sy.2 }

/-- `calculateLevothyroxineDose`, staged exactly as in the source: missing
weight/TSH errors, the euthyroid (TSH < 4.5) early return, diagnosis note,
severity base dose (early return when 0), hormone fine-tuning, pregnancy,
TSH target note, heart disease, the adrenal-insufficiency stop, then the
remaining multiplicative conditions, elderly cap and `finalStages`. -/
def calculateLevothyroxineDose (profile : PatientProfile) :
    Except DoseError DosageResult :=
  match profile.weightKg with
  | none => .error .weightRequired
  | some weightKg =>
    match profile.currentTSH with
    | none => .error .tshRequired
    | some tsh =>
      if tsh < 4.5 then .ok { dose := 0, alerts := [.euthyroidNoTherapy] }
      else
        let alerts1 := diagnosisAlerts profile tsh
        let bd := baseDoseFor tsh weightKg
        if bd.1 = 0 then .ok { dose := 0, alerts := alerts1 ++ bd.2 }
        else
          let hf := calculateHormoneAdjustmentFactor profile
          let pg := applyPregnancy profile (bd.1 * hf.1)
          let tAlerts := targetTSHAlerts profile tsh
          let hd := applyHeartDisease profile pg.1
          if profile.hasAdrenalInsufficiency then
            .ok { dose := 0,
                  alerts := alerts1 ++ bd.2 ++ hf.2 ++ pg.2 ++ tAlerts ++
                    hd.2 ++ [.adrenalCritical] }
          else
            let os := applyOsteoporosis profile hd.1
            let es := applyEstrogen profile os.1
            let gi := applyGI profile es.1
            let lv := applyLiverDisease profile gi.1
            let kd := applyKidneyDisease profile lv.1
            let lw : ℚ × List Alert :=
              if weightKg < SAFETY_LIMITS_lowWeightThreshold then
                (kd.1 * DOSAGE_MULTIPLIERS_lowWeight, [.lowBodyWeight])
              else (kd.1, [])
            let eld : ℚ × List Alert :=
              if (match profile.age with
                  | some a => decide (SAFETY_LIMITS_elderlyAgeThreshold ≤ a)
                  | none => false) then
                (min lw.1 SAFETY_LIMITS_elderlyMaxDose, [.elderlyCap])
              else (lw.1, [])
            finalStages profile tsh eld.1
              (alerts1 ++ bd.2 ++ hf.2 ++ pg.2 ++ tAlerts ++ hd.2 ++ os.2 ++
                es.2 ++ gi.2 ++ lv.2 ++ kd.2 ++ lw.2 ++ eld.2)

/-- The methimazole cardiac flag
`profile.hasHighRiskHeartDisease ?? profile.hasLowRiskHeartDisease ?? false`:
nullish coalescing, so a *defined* `hasHighRiskHeartDisease` (even `false`)
wins over `hasLowRiskHeartDisease`. -/
def methimazoleCardiacFlag (profile : PatientProfile) : Bool :=
  match profile.hasHighRiskHeartDisease with
  | some b => b
  | none => profile.hasLowRiskHeartDisease.getD false

/-- `value` holds and is strictly above `bound` (the repeated
`x != null && x > bound` test of `calculateMethimazoleDose`). -/
def optAbove (value : Option ℚ) (bound : ℚ) : Bool :=
  match value with
  | some v => decide (bound < v)
  | none => false

/-- The rounding of step 6 of `calculateMethimazoleDose`: round to the
nearest 5 mg and clamp to [5, 40] mg (applied only on the overt path). -/
def roundClampMethimazole (d : ℚ) : ℚ :=
  max 5 (min ((jsRound (d / 5) * 5 : ℤ) : ℚ) 40)

/-- Step 2's `hasFreeHormones`: both free values present. -/
def hasFreeHormones (profile : PatientProfile) : Bool :=
  profile.currentFT4.isSome && profile.currentFT3.isSome

/-- Step 2's `hasTotalHormones`: both total values present. -/
def hasTotalHormones (profile : PatientProfile) : Bool :=
  profile.currentT4.isSome && profile.currentT3.isSome

/-- The `missingFields` enumeration of step 2, in source push order
(FT3, FT4, T3, T4). -/
def missingHormoneFieldsOf (profile : PatientProfile) : List Hormone :=
  (if profile.currentFT3.isNone then [.FT3] else []) ++
    (if profile.currentFT4.isNone then [.FT4] else []) ++
    (if profile.currentT3.isNone then [.T3] else []) ++
    (if profile.currentT4.isNone then [.T4] else [])

/-- Step 3's `ft4ULN` (free hormones preferred, totals as fallback). -/
def ft4ULNOf (profile : PatientProfile) : ℚ :=
  if hasFreeHormones profile then (THYROID_REFERENCE_RANGES .FT4).high
  else (THYROID_REFERENCE_RANGES .T4).high

/-- Step 3's `ft3ULN`. -/
def ft3ULNOf (profile : PatientProfile) : ℚ :=
  if hasFreeHormones profile then (THYROID_REFERENCE_RANGES .FT3).high
  else (THYROID_REFERENCE_RANGES .T3).high

/-- Step 4's local `currentFT4` (the chosen FT4-or-T4 measurement). -/
def chosenFT4 (profile : PatientProfile) : Option ℚ :=
  if hasFreeHormones profile then profile.currentFT4 else profile.currentT4

/-- Step 4's local `currentFT3`. -/
def chosenFT3 (profile : PatientProfile) : Option ℚ :=
  if hasFreeHormones profile then profile.currentFT3 else profile.currentT3

/-- Step 4's `isHyperthyroid` flag: some chosen hormone strictly above its
upper reference bound. -/
def isHyperthyroidOf (profile : PatientProfile) : Bool :=
  optAbove (chosenFT4 profile) (ft4ULNOf profile) ||
    optAbove (chosenFT3 profile) (ft3ULNOf profile)

/-- The subclinical treatment test `age >= 65 || hasCardiac ||
hasOsteoporosis` (with `age = profile.age ?? 0` and the coalesced cardiac
flag). -/
def subclinicalTreatCondition (profile : PatientProfile) : Bool :=
  decide (65 ≤ profile.age.getD 0) || methimazoleCardiacFlag profile ||
    profile.hasOsteoporosis

/-- Step 5: severity classification by the FT4 ratio, with the borderline
(1.9–2.0) very-high-FT3 upgrade, paired with the alerts it pushes. -/
def methimazoleSeverity (ft4Ratio : ℚ) (ft3VeryHigh : Bool) :
    Severity × List Alert :=
  if 2.0 ≤ ft4Ratio ∧ ft4Ratio ≤ 3.0 then (.severe, [])
  else if 1.9 ≤ ft4Ratio ∧ ft4Ratio < 2.0 ∧ ft3VeryHigh = true then
    (.severe, [.moderateSevereUpgrade])
  else if 1.5 ≤ ft4Ratio ∧ ft4Ratio < 2.0 then (.moderate, [])
  else if 1.0 ≤ ft4Ratio ∧ ft4Ratio < 1.5 then (.mild, [])
  else if 3.0 < ft4Ratio then (.severe, [.verySevereConsultSpecialist])
  else (.mild, [])

/-- Step 6: raw dose, follow-up weeks and alert selection — pediatric
weight-based dosing for ages 1–17 with positive weight, otherwise the
adult severity tiers. -/
def methimazoleDoseSelection (profile : PatientProfile) (sev : Severity)
    (ft3Elevated ft3Disproportionate : Bool) : ℚ × ℕ × List Alert :=
  let age := profile.age.getD 0
  let hasCardiac := methimazoleCardiacFlag profile
  let isElderly := decide (65 ≤ age)
  let isChild := decide (0 < age) && decide (age < 18)
  if isChild &&
      (match profile.weightKg with
       | some w => decide (0 < w)
       | none => false) then
    let weight := profile.weightKg.getD 0
    if sev = .severe then
      (min (weight * 0.7) 40, 4, [.pediatricSevereDosing])
    else
      (min (weight * 0.35) 30, 4, [.pediatricStandardDosing])
  else
    match sev with
    | .mild =>
      if age < 65 ∧ hasCardiac = false then
        if ft3Elevated then (10, 6, [.mildElevatedT3Dosing])
        else (7.5, 6, [.mildStandardDosing])
      else (5, 6, [.mildConservativeDosing])
    | .moderate =>
      if ft3Disproportionate then (20, 4, [.moderateHighFT3Dosing])
      else (15, 4, [.moderateStandardDosing])
    | .severe =>
      if isElderly || hasCardiac then
        (20, if isElderly then 4 else 2, [.severeElderlyCardiacDosing])
      else
        (35, if isElderly then 4 else 2, [.severeStandardDosing])

/-- `calculateMethimazoleDose`, staged exactly as the source: missing-TSH
error; TSH > 0.1 early return; missing complete hormone pair early return
with the enumerated missing fields; subclinical path (treat only when
age ≥ 65 or the coalesced cardiac flag or osteoporosis); overt path with
FT4-ratio severity, pediatric weight-based or adult tiered dosing, and
final rounding/clamping; titration guidance appended on the fall-through
returns. -/
def calculateMethimazoleDose (profile : PatientProfile) :
    Except DoseError DosageResult :=
  match profile.currentTSH with
  | none => .error .methimazoleTshRequired
  | some tsh =>
    if 0.1 < tsh then
      .ok { dose := 0, alerts := [.tshNotSuppressed] }
    else if !hasFreeHormones profile && !hasTotalHormones profile then
      .ok { dose := 0, alerts := [.missingHormoneValues],
            requiresHormoneData := true,
            missingHormoneFields := missingHormoneFieldsOf profile }
    else if !isHyperthyroidOf profile then
      if subclinicalTreatCondition profile then
        .ok { dose := 5, severity := some .mild, followUpWeeks := some 6,
              alerts := [.subclinicalTreat, .titrationGuidance] }
      else
        .ok { dose := 0, severity := some .mild, followUpWeeks := some 12,
              alerts := [.subclinicalNoTreat] }
    else
      match chosenFT4 profile with
      | none =>
        .ok { dose := 0, alerts := [.overtConfirmed, .cannotDetermineSeverity] }
      | some cFT4 =>
        let sev := methimazoleSeverity (cFT4 / ft4ULNOf profile)
          (optAbove (chosenFT3 profile) (ft3ULNOf profile * 1.8))
        let dfu := methimazoleDoseSelection profile sev.1
          (optAbove (chosenFT3 profile) (ft3ULNOf profile))
          (optAbove (chosenFT3 profile) (ft3ULNOf profile * 1.5))
        .ok { dose := roundClampMethimazole dfu.1,
              severity := some sev.1,
              followUpWeeks := some dfu.2.1,
              alerts := [.overtConfirmed] ++ sev.2 ++ dfu.2.2 ++
                [.titrationGuidance] }

/-- The hormone field of a profile selected by name (used to state which
fields `missingHormoneFields` enumerates). -/
def hormoneField (profile : PatientProfile) : Hormone → Option ℚ
  | .FT3 => profile.currentFT3
  | .FT4 => profile.currentFT4
  | .T3 => profile.currentT3
  | .T4 => profile.currentT4

/-- What the bracket scan leaves in `lower`: a value ≤ the dose, at least
the initial value, drawn from the list (or the initial value), and an upper
bound for every list element ≤ the dose. -/
theorem scanBrackets_lower (c : ℚ) (l : List ℚ) :
    ∀ lo hi : ℚ, l.Sorted (· ≤ ·) → lo ≤ c → (∀ a ∈ l, lo ≤ a) →
      (scanBrackets c l lo hi).1 ≤ c ∧ lo ≤ (scanBrackets c l lo hi).1 ∧
        ((scanBrackets c l lo hi).1 = lo ∨ (scanBrackets c l lo hi).1 ∈ l) ∧
        ∀ a ∈ l, a ≤ c → a ≤ (scanBrackets c l lo hi).1 := by
  induction l with
  | nil =>
    intro lo hi _ hlo _
    refine ⟨hlo, le_refl lo, Or.inl rfl, ?_⟩
    intro a ha
    exact absurd ha (List.not_mem_nil a)
  | cons a rest ih =>
    intro lo hi hsort hlo hall
    rw [List.sorted_cons] at hsort
    obtain ⟨harest, hsort'⟩ := hsort
    by_cases hca : c ≤ a
    · by_cases hac : a ≤ c
      · have hred : scanBrackets c (a :: rest) lo hi = (a, a) := by
          simp only [scanBrackets, if_pos hac, if_pos hca]
        rw [hred]
        refine ⟨hac, hall a (List.mem_cons_self a rest),
          Or.inr (List.mem_cons_self a rest), ?_⟩
        intro b hb hbc
        rcases List.mem_cons.mp hb with rfl | hb'
        · exact le_refl b
        · exact le_trans hbc hca
      · have hred : scanBrackets c (a :: rest) lo hi = (lo, a) := by
          simp only [scanBrackets, if_neg hac, if_pos hca]
        rw [hred]
        refine ⟨hlo, le_refl lo, Or.inl rfl, ?_⟩
        intro b hb hbc
        rcases List.mem_cons.mp hb with rfl | hb'
        · exact absurd hbc hac
        · exact absurd (le_trans (harest b hb') hbc) hac
    · have hac : a ≤ c := le_of_lt (lt_of_not_le hca)
      have hred : scanBrackets c (a :: rest) lo hi = scanBrackets c rest a hi := by
        simp only [scanBrackets, if_pos hac, if_neg hca]
      rw [hred]
      obtain ⟨h1, h2, h3, h4⟩ := ih a hi hsort' hac harest
      refine ⟨h1, le_trans (hall a (List.mem_cons_self a rest)) h2, ?_, ?_⟩
      · rcases h3 with h3 | h3
        · refine Or.inr ?_
          rw [h3]
          exact List.mem_cons_self a rest
        · exact Or.inr (List.mem_cons_of_mem a h3)
      · intro b hb hbc
        rcases List.mem_cons.mp hb with rfl | hb'
        · exact h2
        · exact h4 b hb' hbc

/-- What the bracket scan leaves in `upper`: a value ≥ the dose, drawn from
the list (or the initial value), and a lower bound for every list element
≥ the dose. -/
theorem scanBrackets_upper (c : ℚ) (l : List ℚ) :
    ∀ lo hi : ℚ, l.Sorted (· ≤ ·) → c ≤ hi →
      c ≤ (scanBrackets c l lo hi).2 ∧
        ((scanBrackets c l lo hi).2 = hi ∨ (scanBrackets c l lo hi).2 ∈ l) ∧
        ∀ a ∈ l, c ≤ a → (scanBrackets c l lo hi).2 ≤ a := by
  induction l with
  | nil =>
    intro lo hi _ hhi
    refine ⟨hhi, Or.inl rfl, ?_⟩
    intro a ha
    exact absurd ha (List.not_mem_nil a)
  | cons a rest ih =>
    intro lo hi hsort hhi
    rw [List.sorted_cons] at hsort
    obtain ⟨harest, hsort'⟩ := hsort
    by_cases hca : c ≤ a
    · have hred : (scanBrackets c (a :: rest) lo hi).2 = a := by
        simp only [scanBrackets, if_pos hca]
      rw [hred]
      refine ⟨hca, Or.inr (List.mem_cons_self a rest), ?_⟩
      intro b hb _
      rcases List.mem_cons.mp hb with rfl | hb'
      · exact le_refl b
      · exact harest b hb'
    · have hred : scanBrackets c (a :: rest) lo hi =
          scanBrackets c rest (if a ≤ c then a else lo) hi := by
        simp only [scanBrackets, if_neg hca]
      rw [hred]
      obtain ⟨h1, h2, h3⟩ :=
        ih (if a ≤ c then a else lo) hi hsort' hhi
      refine ⟨h1, ?_, ?_⟩
      · rcases h2 with h2 | h2
        · exact Or.inl h2
        · exact Or.inr (List.mem_cons_of_mem a h2)
      · intro b hb hbc
        rcases List.mem_cons.mp hb with rfl | hb'
        · exact absurd hbc hca
        · exact h3 b hb' hbc

theorem clampDose_lower_bound (x : ℚ) : 25 ≤ clampDose x := by
  unfold clampDose
  exact le_min (le_max_right x 25) (by norm_num)

theorem clampDose_upper_bound (x : ℚ) : clampDose x ≤ 200 :=
  min_le_right _ _

theorem AVAILABLE_DOSES_sorted : AVAILABLE_DOSES.Sorted (· ≤ ·) := by
  simp only [AVAILABLE_DOSES, List.sorted_cons, List.mem_cons, List.mem_singleton]
  norm_num

theorem AVAILABLE_DOSES_ge_25 : ∀ a ∈ AVAILABLE_DOSES, (25 : ℚ) ≤ a := by
  intro a ha
  simp only [AVAILABLE_DOSES, List.mem_cons, List.not_mem_nil, or_false] at ha
  rcases ha with rfl | rfl | rfl | rfl | rfl | rfl | rfl | rfl | rfl | rfl | rfl | rfl | rfl | rfl | rfl <;> norm_num

/-- The scan over the concrete ladder computes exactly the tightest
bracketing pair, for any value in the clamped range. -/
theorem scanBrackets_available_eq (c lo hi : ℚ) (h25 : 25 ≤ c) (h200 : c ≤ 200)
    (hlom : lo ∈ AVAILABLE_DOSES) (hlole : lo ≤ c)
    (hlomax : ∀ a ∈ AVAILABLE_DOSES, a ≤ c → a ≤ lo)
    (hhim : hi ∈ AVAILABLE_DOSES) (hhige : c ≤ hi)
    (hhimin : ∀ a ∈ AVAILABLE_DOSES, c ≤ a → hi ≤ a) :
    scanBrackets c AVAILABLE_DOSES (AVAILABLE_DOSES.headD 0)
      (AVAILABLE_DOSES.getLastD 0) = (lo, hi) := by
  have e1 : AVAILABLE_DOSES.headD 0 = 25 := rfl
  have e2 : AVAILABLE_DOSES.getLastD 0 = 200 := rfl
  rw [e1, e2]
  obtain ⟨L1, L2, L3, L4⟩ :=
    scanBrackets_lower c AVAILABLE_DOSES 25 200 AVAILABLE_DOSES_sorted h25
      AVAILABLE_DOSES_ge_25
  obtain ⟨U1, U2, U3⟩ :=
    scanBrackets_upper c AVAILABLE_DOSES 25 200 AVAILABLE_DOSES_sorted h200
  have hLmem : (scanBrackets c AVAILABLE_DOSES 25 200).1 ∈ AVAILABLE_DOSES := by
    rcases L3 with h | h
    · rw [h]; norm_num [AVAILABLE_DOSES]
    · exact h
  have hUmem : (scanBrackets c AVAILABLE_DOSES 25 200).2 ∈ AVAILABLE_DOSES := by
    rcases U2 with h | h
    · rw [h]; norm_num [AVAILABLE_DOSES]
    · exact h
  have hL : (scanBrackets c AVAILABLE_DOSES 25 200).1 = lo :=
    le_antisymm (hlomax _ hLmem L1) (L4 lo hlom hlole)
  have hU : (scanBrackets c AVAILABLE_DOSES 25 200).2 = hi :=
    le_antisymm (U3 hi hhim hhige) (hhimin _ hUmem U1)
  exact Prod.ext hL hU

/-- For an input already between 25 and 50 the rounded safe dose never
exceeds 50 (both brackets lie at or below the 50 rung). -/
theorem getNearestSafeDose_le_fifty (x : ℚ) (h1 : 25 ≤ x) (h2 : x ≤ 50) :
    getNearestSafeDose x ≤ 50 := by
  have hc : clampDose x = x := by
    unfold clampDose
    rw [max_eq_left h1, min_eq_left (by linarith)]
  obtain ⟨L1, L2, L3, L4⟩ :=
    scanBrackets_lower x AVAILABLE_DOSES 25 200 AVAILABLE_DOSES_sorted h1
      AVAILABLE_DOSES_ge_25
  obtain ⟨U1, U2, U3⟩ :=
    scanBrackets_upper x AVAILABLE_DOSES 25 200 AVAILABLE_DOSES_sorted
      (by linarith)
  have h50 : (50 : ℚ) ∈ AVAILABLE_DOSES := by norm_num [AVAILABLE_DOSES]
  have hU50 : (scanBrackets x AVAILABLE_DOSES 25 200).2 ≤ 50 := U3 50 h50 h2
  have hL50 : (scanBrackets x AVAILABLE_DOSES 25 200).1 ≤ 50 := le_trans L1 h2
  have e1 : AVAILABLE_DOSES.headD 0 = 25 := rfl
  have e2 : AVAILABLE_DOSES.getLastD 0 = 200 := rfl
  unfold getNearestSafeDose
  rw [hc, e1, e2]
  dsimp only
  split_ifs <;> assumption

/-- The overt-path rounding always lands on a multiple of 5 between 5 and
40 mg. -/
theorem roundClampMethimazole_form (d : ℚ) :
    ∃ m : ℕ, 1 ≤ m ∧ m ≤ 8 ∧ roundClampMethimazole d = 5 * m := by
  unfold roundClampMethimazole
  set k : ℤ := jsRound (d / 5) with hk
  have key : max (5 : ℚ) (min ((k * 5 : ℤ) : ℚ) 40) =
      ((5 * max 1 (min k 8) : ℤ) : ℚ) := by
    rcases le_or_lt k 1 with hk1 | hk1
    · have h5 : ((k * 5 : ℤ) : ℚ) ≤ 5 := by
        exact_mod_cast (show k * 5 ≤ 5 by omega)
      have hmin : min ((k * 5 : ℤ) : ℚ) 40 ≤ 5 := le_trans (min_le_left _ _) h5
      rw [max_eq_left hmin, min_eq_left (show k ≤ 8 by omega), max_eq_left hk1]
      norm_num
    · rcases le_or_lt 8 k with hk8 | hk8
      · have h40 : (40 : ℚ) ≤ ((k * 5 : ℤ) : ℚ) := by
          exact_mod_cast (show (40 : ℤ) ≤ k * 5 by omega)
        rw [min_eq_right h40, min_eq_right hk8]
        norm_num
      · have hlow : (5 : ℚ) ≤ ((k * 5 : ℤ) : ℚ) := by
          exact_mod_cast (show (5 : ℤ) ≤ k * 5 by omega)
        have hhigh : ((k * 5 : ℤ) : ℚ) ≤ 40 := by
          exact_mod_cast (show k * 5 ≤ 40 by omega)
        rw [min_eq_left hhigh, max_eq_right hlow, min_eq_left (le_of_lt hk8),
          max_eq_right (le_of_lt hk1)]
        push_cast
        ring
  have hn1 : (1 : ℤ) ≤ max 1 (min k 8) := le_max_left 1 _
  have hn8 : max 1 (min k 8) ≤ 8 := max_le (by norm_num) (min_le_right k 8)
  have hcast : ((max 1 (min k 8)).toNat : ℤ) = max 1 (min k 8) :=
    Int.toNat_of_nonneg (by linarith)
  refine ⟨(max 1 (min k 8)).toNat, by omega, by omega, ?_⟩
  rw [key, show (5 : ℤ) * (max 1 (min k 8)) =
    5 * (((max 1 (min k 8)).toNat : ℤ)) by rw [hcast]]
  push_cast
  ring

/-- With no known current dose the gradual-titration stage is a no-op. -/
theorem applyTitration_none (p : PatientProfile) (d : ℚ)
    (h : p.currentDose = none) : applyTitration p d = (d, []) := by
  unfold applyTitration
  rw [h]

/-- The symptom reduction never raises a dose above a bound ≥ 25. -/
theorem applySymptoms_fst_le (p : PatientProfile) {d b : ℚ}
    (hb : 25 ≤ b) (h : d ≤ b) : (applySymptoms p d).1 ≤ b := by
  unfold applySymptoms
  dsimp only
  split_ifs with h1 h2 h3
  · exact max_le hb (by linarith)
  · exact max_le hb (by linarith)
  · exact max_le hb (by linarith)
  · exact h

/-- Without a known current dose, `finalStages` cannot raise a dose that
entered at or below 50 above 50. -/
theorem finalStages_dose_le_fifty (p : PatientProfile) (tsh d6 : ℚ)
    (as : List Alert) (r : DosageResult) (hnone : p.currentDose = none)
    (hd : d6 ≤ 50) (h : finalStages p tsh d6 as = .ok r) : r.dose ≤ 50 := by
  unfold finalStages at h
  rw [applyTitration_none p d6 hnone] at h
  dsimp only at h
  split_ifs at h
  all_goals try exact Except.noConfusion h
  all_goals
    injection h with h
    subst h
    dsimp only
    have hsy : (applySymptoms p d6).1 ≤ 50 :=
      applySymptoms_fst_le p (by norm_num) hd
    refine getNearestSafeDose_le_fifty _ (le_max_left _ _) ?_
    refine max_le (by norm_num) ?_
    exact le_trans (min_le_left _ _) hsy

/-- Claim C6 (confirmed): `getNearestSafeDose` first clamps its input to
[25, 200]; with `lo` and `hi` the tightest bracketing values on the
ascending 12.5 mcg ladder, it returns the lower value whenever it is within
6.25 mcg and the upper is more than 1 mcg away, returns the upper value
whenever it is within 1 mcg, and otherwise returns whichever bracket value
is numerically closer (ties to the lower). -/
theorem getNearestSafeDose_bracket_selection (x lo hi : ℚ)
    (hlom : lo ∈ AVAILABLE_DOSES) (hlole : lo ≤ clampDose x)
    (hlomax : ∀ a ∈ AVAILABLE_DOSES, a ≤ clampDose x → a ≤ lo)
    (hhim : hi ∈ AVAILABLE_DOSES) (hhige : clampDose x ≤ hi)
    (hhimin : ∀ a ∈ AVAILABLE_DOSES, clampDose x ≤ a → hi ≤ a) :
    getNearestSafeDose x =
      if jsAbs (clampDose x - lo) ≤ 6.25 ∧ 1 < jsAbs (hi - clampDose x) then lo
      else if jsAbs (hi - clampDose x) ≤ 1 then hi
      else if jsAbs (clampDose x - lo) ≤ jsAbs (hi - clampDose x) then lo
      else hi := by
  have hscan := scanBrackets_available_eq (clampDose x) lo hi
    (clampDose_lower_bound x) (clampDose_upper_bound x) hlom hlole hlomax
    hhim hhige hhimin
  unfold getNearestSafeDose
  dsimp only
  rw [hscan]

/-- Witness for C6: the two boundary inputs named by the spec, 99 → 100
(upper bracket within 1 mcg) and 92 → 87.5 (lower bracket within
6.25 mcg). -/
theorem getNearestSafeDose_bracket_selection_witness :
    getNearestSafeDose 99 = 100 ∧ getNearestSafeDose 92 = 87.5 := by
  have hc99 : clampDose 99 = 99 := by norm_num [clampDose]
  have hc92 : clampDose 92 = 92 := by norm_num [clampDose]
  constructor
  · have h := getNearestSafeDose_bracket_selection 99 87.5 100
      (by norm_num [AVAILABLE_DOSES])
      (by rw [hc99]; norm_num)
      (by rw [hc99]
          intro a ha hle
          simp only [AVAILABLE_DOSES, List.mem_cons, List.not_mem_nil, or_false] at ha
          rcases ha with rfl|rfl|rfl|rfl|rfl|rfl|rfl|rfl|rfl|rfl|rfl|rfl|rfl|rfl|rfl <;>
            norm_num at hle ⊢)
      (by norm_num [AVAILABLE_DOSES])
      (by rw [hc99]; norm_num)
      (by rw [hc99]
          intro a ha hle
          simp only [AVAILABLE_DOSES, List.mem_cons, List.not_mem_nil, or_false] at ha
          rcases ha with rfl|rfl|rfl|rfl|rfl|rfl|rfl|rfl|rfl|rfl|rfl|rfl|rfl|rfl|rfl <;>
            norm_num at hle ⊢)
    rw [h, hc99]
    norm_num [jsAbs]
  · have h := getNearestSafeDose_bracket_selection 92 87.5 100
      (by norm_num [AVAILABLE_DOSES])
      (by rw [hc92]; norm_num)
      (by rw [hc92]
          intro a ha hle
          simp only [AVAILABLE_DOSES, List.mem_cons, List.not_mem_nil, or_false] at ha
          rcases ha with rfl|rfl|rfl|rfl|rfl|rfl|rfl|rfl|rfl|rfl|rfl|rfl|rfl|rfl|rfl <;>
            norm_num at hle ⊢)
      (by norm_num [AVAILABLE_DOSES])
      (by rw [hc92]; norm_num)
      (by rw [hc92]
          intro a ha hle
          simp only [AVAILABLE_DOSES, List.mem_cons, List.not_mem_nil, or_false] at ha
          rcases ha with rfl|rfl|rfl|rfl|rfl|rfl|rfl|rfl|rfl|rfl|rfl|rfl|rfl|rfl|rfl <;>
            norm_num at hle ⊢)
    rw [h, hc92]
    norm_num [jsAbs]

/-- The spec-side description of one hormone's contribution to the
adjustment factor: `(1 + pct)` when the value is present and strictly below
the reference low, else 1. -/
def specLowContribution (value : Option ℚ) (low pct : ℚ) : ℚ :=
  match value with
  | some v => if v < low then 1 + pct else 1
  | none => 1

/-- Claim C8 (confirmed): the hormone adjustment factor is exactly the
product, over the hormones that are present and strictly below their
reference lows, of `(1 + pct)` with pct 15% for FT4, 10% for FT3, 10% for
T4 and 5% for T3; the four checks are independent and compose
multiplicatively (and the factor is 1 when no present hormone is low). -/
theorem hormone_adjustment_is_product (p : PatientProfile) :
    (calculateHormoneAdjustmentFactor p).1 =
      specLowContribution p.currentFT4 (THYROID_REFERENCE_RANGES .FT4).low 0.15 *
        specLowContribution p.currentFT3 (THYROID_REFERENCE_RANGES .FT3).low 0.1 *
        specLowContribution p.currentT4 (THYROID_REFERENCE_RANGES .T4).low 0.1 *
        specLowContribution p.currentT3 (THYROID_REFERENCE_RANGES .T3).low 0.05 := by
  unfold calculateHormoneAdjustmentFactor applyLowValueAdjustment specLowContribution
  cases p.currentFT4 <;> cases p.currentFT3 <;> cases p.currentT4 <;>
    cases p.currentT3 <;> dsimp only <;>
    first
      | (split_ifs <;> norm_num)
      | norm_num

/-- Claim C1 (corrected), counterexample: a profile with weight and TSH
present, TSH = 0.05 < 0.1, an explicit negative hypothyroid diagnosis and a
reported headache — the claim says the calculator must raise an error, but
it returns the euthyroid dose-0 result (the TSH < 4.5 early return fires
before the low-TSH safety checks, which are unreachable for TSH < 0.1). -/
theorem levothyroxine_low_tsh_error_counterexample :
    calculateLevothyroxineDose
      { weightKg := some 70, currentTSH := some 0.05,
        hasHypothyroidDiagnosis := some false,
        symptoms := some { headache := true } } =
      .ok { dose := 0, alerts := [.euthyroidNoTherapy] } := by
  norm_num [calculateLevothyroxineDose]

/-- Claim C1 (corrected), amended: for every profile with weightKg and
currentTSH present, TSH < 0.1, and either no hypothyroid diagnosis or a
reported overdose symptom, `calculateLevothyroxineDose` does not raise an
error: it returns the euthyroid early-return result with dose 0. -/
theorem levothyroxine_low_tsh_returns_zero (p : PatientProfile) (w tsh : ℚ)
    (hw : p.weightKg = some w) (htsh : p.currentTSH = some tsh)
    (hlow : tsh < 0.1)
    (hcond : p.hasHypothyroidDiagnosis.getD false = false ∨
      symptomHeadache p = true ∨ symptomAnxious p = true) :
    ∃ r, calculateLevothyroxineDose p = .ok r ∧ r.dose = 0 := by
  unfold calculateLevothyroxineDose
  rw [hw, htsh]
  dsimp only
  rw [if_pos (show tsh < 4.5 by norm_num at hlow ⊢; linarith)]
  exact ⟨_, rfl, rfl⟩

/-- Witness for the amended C1 at the counterexample profile. -/
theorem levothyroxine_low_tsh_returns_zero_witness :
    ((0.05 : ℚ) < 0.1) ∧
      ∃ r, calculateLevothyroxineDose
        { weightKg := some 70, currentTSH := some 0.05,
          hasHypothyroidDiagnosis := some false,
          symptoms := some { headache := true } } = .ok r ∧ r.dose = 0 :=
  ⟨by norm_num,
    levothyroxine_low_tsh_returns_zero _ 70 0.05 rfl rfl (by norm_num)
      (Or.inl rfl)⟩

/-- Claim C4 (confirmed): with weight and TSH present and adrenal
insufficiency set, `calculateLevothyroxineDose` returns dose 0 whatever
the magnitudes and the other comorbidity flags — every reachable return
before and including the adrenal stop carries dose 0, and the stop
precedes all remaining stages. -/
theorem levothyroxine_adrenal_dose_zero (p : PatientProfile) (w tsh : ℚ)
    (hw : p.weightKg = some w) (htsh : p.currentTSH = some tsh)
    (hadr : p.hasAdrenalInsufficiency = true) :
    ∃ r, calculateLevothyroxineDose p = .ok r ∧ r.dose = 0 := by
  unfold calculateLevothyroxineDose
  rw [hw, htsh]
  dsimp only
  rw [hadr]
  split_ifs <;> first | exact ⟨_, rfl, rfl⟩ | simp_all

/-- Witness for C4: a severe-TSH, heavy, adrenal-insufficient profile
still yields dose 0. -/
theorem levothyroxine_adrenal_dose_zero_witness :
    ∃ r, calculateLevothyroxineDose
      { weightKg := some 100, currentTSH := some 30,
        hasAdrenalInsufficiency := true } = .ok r ∧ r.dose = 0 :=
  levothyroxine_adrenal_dose_zero _ 100 30 rfl rfl rfl

/-- Claim C5 (confirmed): with TSH present and ≤ 0.1 but neither the
(FT4, FT3) pair nor the (T4, T3) pair completely present,
`calculateMethimazoleDose` returns (does not throw) a structured result
with dose 0, `requiresHormoneData = true`, and `missingHormoneFields`
listing exactly the absent fields among FT3, FT4, T3, T4. -/
theorem methimazole_missing_hormone_data (p : PatientProfile) (tsh : ℚ)
    (htsh : p.currentTSH = some tsh) (hlow : tsh ≤ 0.1)
    (hfree : ¬(p.currentFT4.isSome = true ∧ p.currentFT3.isSome = true))
    (htotal : ¬(p.currentT4.isSome = true ∧ p.currentT3.isSome = true)) :
    ∃ r, calculateMethimazoleDose p = .ok r ∧ r.dose = 0 ∧
      r.requiresHormoneData = true ∧
      ∀ h : Hormone, h ∈ r.missingHormoneFields ↔ hormoneField p h = none := by
  have hf : hasFreeHormones p = false := by
    unfold hasFreeHormones
    cases h4 : p.currentFT4.isSome <;> cases h3 : p.currentFT3.isSome <;> simp_all
  have ht : hasTotalHormones p = false := by
    unfold hasTotalHormones
    cases h4 : p.currentT4.isSome <;> cases h3 : p.currentT3.isSome <;> simp_all
  unfold calculateMethimazoleDose
  rw [htsh]
  dsimp only
  rw [if_neg (not_lt.mpr hlow), hf, ht,
    if_pos (show ((!false && !false) = true) from rfl)]
  refine ⟨_, rfl, rfl, rfl, ?_⟩
  intro h
  unfold missingHormoneFieldsOf
  cases h <;>
    (simp only [hormoneField, List.mem_append]
     split_ifs <;> simp_all [Option.isNone_iff_eq_none])

/-- Witness for C5: TSH = 0.05 with all four hormones absent gives dose 0,
`requiresHormoneData`, and all four field names listed. -/
theorem methimazole_missing_hormone_data_witness :
    ((0.05 : ℚ) ≤ 0.1) ∧
      (∃ r, calculateMethimazoleDose { currentTSH := some 0.05 } = .ok r ∧
        r.dose = 0 ∧ r.requiresHormoneData = true ∧
        ∀ h : Hormone, h ∈ r.missingHormoneFields ↔
          hormoneField { currentTSH := some 0.05 } h = none) ∧
      (calculateMethimazoleDose { currentTSH := some 0.05 }).map
        DosageResult.missingHormoneFields = .ok [.FT3, .FT4, .T3, .T4] := by
  refine ⟨by norm_num,
    methimazole_missing_hormone_data _ 0.05 rfl (by norm_num) (by simp) (by simp),
    ?_⟩
  norm_num [calculateMethimazoleDose, hasFreeHormones, hasTotalHormones,
    missingHormoneFieldsOf, Except.map]

/-- Claim C7 (corrected), counterexample: on the TSH-not-suppressed path
(TSH = 5) the returned alert list is exactly the not-suppressed message;
the titration-guidance alert is not in it, contradicting "appended on every
path". -/
theorem methimazole_titration_alert_counterexample :
    (calculateMethimazoleDose { currentTSH := some 5 }).map DosageResult.alerts =
      .ok [Alert.tshNotSuppressed] ∧
      Alert.titrationGuidance ∉ [Alert.tshNotSuppressed] := by
  constructor
  · norm_num [calculateMethimazoleDose, Except.map]
  · simp

/-- Claim C7 (corrected), amended: the titration-guidance alert is
contained in every methimazole result that carries a non-zero dose (the
subclinical-treatment and overt dosing paths); the early returns — TSH not
suppressed, missing hormone data, subclinical no-treatment and the
undeterminable-severity guard — return dose 0 without it. -/
theorem methimazole_titration_alert_when_dosing (p : PatientProfile)
    (r : DosageResult) (h : calculateMethimazoleDose p = .ok r)
    (hd : r.dose ≠ 0) : Alert.titrationGuidance ∈ r.alerts := by
  unfold calculateMethimazoleDose at h
  split at h
  · exact Except.noConfusion h
  · dsimp only at h
    split at h
    · injection h with h
      subst h
      exact absurd rfl hd
    · split at h
      · injection h with h
        subst h
        exact absurd rfl hd
      · split at h
        · split at h
          · injection h with h
            subst h
            simp
          · injection h with h
            subst h
            exact absurd rfl hd
        · split at h
          · injection h with h
            subst h
            exact absurd rfl hd
          · injection h with h
            subst h
            simp

/-- Witness for the amended C7: an overt severe adult case carries a
non-zero dose (35 mg) and the titration alert. -/
theorem methimazole_titration_alert_when_dosing_witness :
    ∃ r, calculateMethimazoleDose
      { age := some 30, currentTSH := some 0.05, currentFT4 := some 4,
        currentFT3 := some 3 } = .ok r ∧ r.dose ≠ 0 ∧
      Alert.titrationGuidance ∈ r.alerts := by
  have hcalc : calculateMethimazoleDose
      { age := some 30, currentTSH := some 0.05, currentFT4 := some 4,
        currentFT3 := some 3 } =
      .ok { dose := 35, severity := some .severe, followUpWeeks := some 2,
            alerts := [.overtConfirmed, .severeStandardDosing,
              .titrationGuidance] } := by
    norm_num [calculateMethimazoleDose, hasFreeHormones, hasTotalHormones,
      isHyperthyroidOf, chosenFT4, chosenFT3, ft4ULNOf, ft3ULNOf, optAbove,
      subclinicalTreatCondition, methimazoleCardiacFlag, methimazoleSeverity,
      methimazoleDoseSelection, roundClampMethimazole, jsRound]
  refine ⟨_, hcalc, by norm_num, ?_⟩
  exact methimazole_titration_alert_when_dosing _ _ hcalc (by norm_num)

/-- Claim C10 (confirmed): whenever TSH is present every methimazole
result's dose is 0 or a multiple of 5 mg within [5, 40] — the subclinical
treatment dose is the literal 5 and every overt dose (pediatric
weight-based included) passes through rounding to the nearest 5 mg and
clamping to [5, 40]. -/
theorem methimazole_dose_grid (p : PatientProfile) (tsh : ℚ)
    (htsh : p.currentTSH = some tsh) (r : DosageResult)
    (h : calculateMethimazoleDose p = .ok r) :
    r.dose = 0 ∨ ∃ m : ℕ, 1 ≤ m ∧ m ≤ 8 ∧ r.dose = 5 * m := by
  unfold calculateMethimazoleDose at h
  rw [htsh] at h
  dsimp only at h
  split at h
  · injection h with h
    subst h
    exact Or.inl rfl
  · split at h
    · injection h with h
      subst h
      exact Or.inl rfl
    · split at h
      · split at h
        · injection h with h
          subst h
          exact Or.inr ⟨1, le_refl 1, by norm_num, by norm_num⟩
        · injection h with h
          subst h
          exact Or.inl rfl
      · split at h
        · injection h with h
          subst h
          exact Or.inl rfl
        · injection h with h
          subst h
          exact Or.inr (roundClampMethimazole_form _)

/-- Witness for C10 at the TSH-not-suppressed input. -/
theorem methimazole_dose_grid_witness :
    calculateMethimazoleDose { currentTSH := some 5 } =
      .ok { dose := 0, alerts := [Alert.tshNotSuppressed] } ∧
      ((0 : ℚ) = 0 ∨ ∃ m : ℕ, 1 ≤ m ∧ m ≤ 8 ∧ (0 : ℚ) = 5 * m) := by
  have hcalc : calculateMethimazoleDose { currentTSH := some 5 } =
      .ok { dose := 0, alerts := [Alert.tshNotSuppressed] } := by
    norm_num [calculateMethimazoleDose]
  exact ⟨hcalc, methimazole_dose_grid _ 5 rfl _ hcalc⟩

/-- Claim C2 (corrected), counterexample: an elderly profile (age 70,
weight 100, TSH 30) with a known current dose of 200 mcg receives 175 mcg —
the gradual-titration limiter runs after the elderly cap and pulls the dose
back toward the current dose, past the 50 mcg cap. -/
theorem levothyroxine_elderly_titration_counterexample :
    (calculateLevothyroxineDose
      { age := some 70, weightKg := some 100, currentTSH := some 30,
        currentDose := some 200, hasHypothyroidDiagnosis := some true }).map
      DosageResult.dose = .ok 175 ∧ ¬((175 : ℚ) ≤ 50) := by
  constructor
  · norm_num [calculateLevothyroxineDose, diagnosisAlerts, baseDoseFor,
      calculateHormoneAdjustmentFactor, applyLowValueAdjustment, applyPregnancy,
      targetTSHAlerts, applyHeartDisease, applyOsteoporosis, applyEstrogen,
      applyGI, applyLiverDisease, applyKidneyDisease, finalStages,
      applyTitration, applySymptoms, symptomCount, symptomHeadache,
      symptomAnxious, jsSign, jsAbs, getNearestSafeDose,
      getNearestCommercialTablet, clampDose, scanBrackets, nearestScan,
      Except.map]
  · norm_num

/-- Claim C2 (corrected), amended: for every profile with weightKg,
currentTSH and age present, age ≥ 60, and **no known current dose**, every
returned dose is at most 50 mcg — the elderly cap holds through the
symptom reduction, final clamping and ladder rounding; only the
gradual-titration stage (which needs a current dose) can exceed it. -/
theorem levothyroxine_elderly_cap_without_current_dose (p : PatientProfile)
    (w tsh a : ℚ) (r : DosageResult) (hw : p.weightKg = some w)
    (htsh : p.currentTSH = some tsh) (hage : p.age = some a) (h60 : 60 ≤ a)
    (hcd : p.currentDose = none)
    (h : calculateLevothyroxineDose p = .ok r) : r.dose ≤ 50 := by
  unfold calculateLevothyroxineDose at h
  rw [hw, htsh] at h
  dsimp only at h
  rw [hage] at h
  dsimp only at h
  have helderly : decide (SAFETY_LIMITS_elderlyAgeThreshold ≤ a) = true :=
    decide_eq_true (by simp only [SAFETY_LIMITS_elderlyAgeThreshold]; exact h60)
  rw [if_pos helderly] at h
  split_ifs at h
  all_goals try (injection h with h; subst h; norm_num)
  all_goals exact finalStages_dose_le_fifty p tsh _ _ r hcd (min_le_right _ _) h

/-- Witness for the amended C2: the same elderly profile with no current
dose is capped at 50 mcg. -/
theorem levothyroxine_elderly_cap_without_current_dose_witness :
    ∃ r, calculateLevothyroxineDose
      { age := some 70, weightKg := some 100, currentTSH := some 30,
        hasHypothyroidDiagnosis := some true } = .ok r ∧ r.dose ≤ 50 := by
  have hcalc : calculateLevothyroxineDose
      { age := some 70, weightKg := some 100, currentTSH := some 30,
        hasHypothyroidDiagnosis := some true } =
      .ok { dose := 50, nearestTablet := some 50,
            alerts := [.severeHypothyroidism, .tshExceedsTarget, .elderlyCap] } := by
    norm_num [calculateLevothyroxineDose, diagnosisAlerts, baseDoseFor,
      calculateHormoneAdjustmentFactor, applyLowValueAdjustment, applyPregnancy,
      targetTSHAlerts, applyHeartDisease, applyOsteoporosis, applyEstrogen,
      applyGI, applyLiverDisease, applyKidneyDisease, finalStages,
      applyTitration, applySymptoms, symptomCount, symptomHeadache,
      symptomAnxious, jsSign, jsAbs, getNearestSafeDose,
      getNearestCommercialTablet, clampDose, scanBrackets, nearestScan]
  exact ⟨_, hcalc,
    levothyroxine_elderly_cap_without_current_dose _ 100 30 70 _ rfl rfl rfl
      (by norm_num) rfl hcalc⟩

/-- Claim C3 (corrected), counterexample: a subclinical profile whose
`hasHighRiskHeartDisease` is explicitly `false` while
`hasLowRiskHeartDisease` is `true` (age 40, no osteoporosis): the claim
says any heart disease triggers treatment (dose 5, 6 weeks), but the
nullish-coalescing cardiac flag evaluates to `false` and the code returns
no treatment (dose 0, 12 weeks). -/
theorem methimazole_subclinical_lowrisk_counterexample :
    ({ age := some 40, currentTSH := some 0.05, currentFT4 := some 1,
       currentFT3 := some 3, hasHighRiskHeartDisease := some false,
       hasLowRiskHeartDisease := some true } : PatientProfile).hasLowRiskHeartDisease
        = some true ∧
      (calculateMethimazoleDose
        { age := some 40, currentTSH := some 0.05, currentFT4 := some 1,
          currentFT3 := some 3, hasHighRiskHeartDisease := some false,
          hasLowRiskHeartDisease := some true }).map
        (fun r => (r.dose, r.followUpWeeks)) = .ok (0, some 12) := by
  constructor
  · rfl
  · norm_num [calculateMethimazoleDose, hasFreeHormones, hasTotalHormones,
      isHyperthyroidOf, chosenFT4, chosenFT3, ft4ULNOf, ft3ULNOf, optAbove,
      subclinicalTreatCondition, methimazoleCardiacFlag, Except.map]

/-- Claim C3 (corrected), amended: on the subclinical path (TSH present and
≤ 0.1, a complete chosen hormone pair with no value above its upper bound)
the result is dose 5 with a 6-week follow-up exactly when the code's
treatment test fires — age ≥ 65, or the *coalesced* cardiac flag
(`hasHighRiskHeartDisease` if defined, else `hasLowRiskHeartDisease`, else
false), or osteoporosis — and dose 0 with a 12-week follow-up otherwise. -/
theorem methimazole_subclinical_policy (p : PatientProfile) (tsh : ℚ)
    (htsh : p.currentTSH = some tsh) (hlow : tsh ≤ 0.1)
    (hpair :
      (∃ f4 f3, p.currentFT4 = some f4 ∧ p.currentFT3 = some f3 ∧
        f4 ≤ (THYROID_REFERENCE_RANGES .FT4).high ∧
        f3 ≤ (THYROID_REFERENCE_RANGES .FT3).high) ∨
      ((p.currentFT4 = none ∨ p.currentFT3 = none) ∧
        ∃ t4 t3, p.currentT4 = some t4 ∧ p.currentT3 = some t3 ∧
          t4 ≤ (THYROID_REFERENCE_RANGES .T4).high ∧
          t3 ≤ (THYROID_REFERENCE_RANGES .T3).high)) :
    ∃ r, calculateMethimazoleDose p = .ok r ∧
      (subclinicalTreatCondition p = true →
        r.dose = 5 ∧ r.followUpWeeks = some 6) ∧
      (subclinicalTreatCondition p = false →
        r.dose = 0 ∧ r.followUpWeeks = some 12) := by
  have hmiss : (!hasFreeHormones p && !hasTotalHormones p) = false := by
    rcases hpair with ⟨f4, f3, h4, h3, _, _⟩ | ⟨_, ⟨t4, t3, h4, h3, _, _⟩⟩
    · have hfree : hasFreeHormones p = true := by
        unfold hasFreeHormones
        rw [h4, h3]
        rfl
      rw [hfree]
      rfl
    · have htot : hasTotalHormones p = true := by
        unfold hasTotalHormones
        rw [h4, h3]
        rfl
      rw [htot]
      simp
  have hhyp : isHyperthyroidOf p = false := by
    unfold isHyperthyroidOf chosenFT4 chosenFT3 ft4ULNOf ft3ULNOf optAbove
    rcases hpair with ⟨f4, f3, h4, h3, hb4, hb3⟩ | ⟨hnone, ⟨t4, t3, h4, h3, hb4, hb3⟩⟩
    · have hfree : hasFreeHormones p = true := by
        unfold hasFreeHormones
        rw [h4, h3]
        rfl
      norm_num at hb4 hb3
      rw [hfree, h4, h3]
      norm_num
      refine ⟨?_, ?_⟩ <;> linarith
    · have hfree : hasFreeHormones p = false := by
        unfold hasFreeHormones
        rcases hnone with hn | hn <;> rw [hn] <;> simp
      norm_num at hb4 hb3
      rw [hfree, h4, h3]
      norm_num
      refine ⟨?_, ?_⟩ <;> linarith
  unfold calculateMethimazoleDose
  rw [htsh]
  dsimp only
  rw [if_neg (not_lt.mpr hlow), hmiss]
  rw [if_neg Bool.false_ne_true]
  rw [hhyp]
  rw [if_pos (show ((!false) = true) from rfl)]
  cases hc : subclinicalTreatCondition p with
  | false =>
    rw [if_neg Bool.false_ne_true]
    refine ⟨_, rfl, ?_, ?_⟩
    · intro hcon
      exact Bool.noConfusion hcon
    · intro _
      exact ⟨rfl, rfl⟩
  | true =>
    rw [if_pos rfl]
    refine ⟨_, rfl, ?_, ?_⟩
    · intro _
      exact ⟨rfl, rfl⟩
    · intro hcon
      exact Bool.noConfusion hcon

/-- Witness for the amended C3: an elderly subclinical profile (age 70,
normal free hormones) receives the mild 5 mg / 6-week regimen. -/
theorem methimazole_subclinical_policy_witness :
    ∃ r, calculateMethimazoleDose
      { age := some 70, currentTSH := some 0.05, currentFT4 := some 1,
        currentFT3 := some 3 } = .ok r ∧
      (subclinicalTreatCondition
          { age := some 70, currentTSH := some 0.05, currentFT4 := some 1,
            currentFT3 := some 3 } = true →
        r.dose = 5 ∧ r.followUpWeeks = some 6) ∧
      (subclinicalTreatCondition
          { age := some 70, currentTSH := some 0.05, currentFT4 := some 1,
            currentFT3 := some 3 } = false →
        r.dose = 0 ∧ r.followUpWeeks = some 12) :=
  methimazole_subclinical_policy _ 0.05 rfl (by norm_num)
    (Or.inl ⟨1, 3, rfl, rfl, by norm_num, by norm_num⟩)

/-- Claim C9 (confirmed): a 10-year-old, 30 kg profile with suppressed TSH
and a complete free pair whose FT4 sits at 2–3 times its upper limit is
severe overt hyperthyroidism; the pediatric severe dose is
min(30 × 0.7, 40) = 21 mg, rounded to the nearest 5 mg → exactly 20 mg. -/
theorem methimazole_pediatric_severe_dose (p : PatientProfile)
    (tsh ft4 ft3 : ℚ) (hage : p.age = some 10) (hw : p.weightKg = some 30)
    (htsh : p.currentTSH = some tsh) (hlow : tsh ≤ 0.1)
    (hft4 : p.currentFT4 = some ft4) (hft3 : p.currentFT3 = some ft3)
    (h2 : 2 * (THYROID_REFERENCE_RANGES .FT4).high ≤ ft4)
    (h3 : ft4 ≤ 3 * (THYROID_REFERENCE_RANGES .FT4).high) :
    ∃ r, calculateMethimazoleDose p = .ok r ∧ r.dose = 20 := by
  norm_num at h2 h3
  have hfree : hasFreeHormones p = true := by
    unfold hasFreeHormones
    rw [hft4, hft3]
    rfl
  have hmiss : (!hasFreeHormones p && !hasTotalHormones p) = false := by
    rw [hfree]
    rfl
  have hULN : ft4ULNOf p = 1.8 := by
    unfold ft4ULNOf
    rw [hfree]
    norm_num
  have hchosen : chosenFT4 p = some ft4 := by
    unfold chosenFT4
    rw [hfree, hft4]
    rfl
  have hgt : (1.8 : ℚ) < ft4 := by
    rw [show (1.8 : ℚ) = 9 / 5 by norm_num]
    linarith
  have hhyp : isHyperthyroidOf p = true := by
    unfold isHyperthyroidOf optAbove
    rw [hchosen, hULN]
    simp [hgt]
  have hr2 : (2.0 : ℚ) ≤ ft4 / 1.8 := by
    rw [le_div_iff (by norm_num : (0 : ℚ) < 1.8)]
    rw [show (2.0 : ℚ) * 1.8 = 18 / 5 by norm_num]
    linarith
  have hr3 : ft4 / 1.8 ≤ 3.0 := by
    rw [div_le_iff (by norm_num : (0 : ℚ) < 1.8)]
    rw [show (3.0 : ℚ) * 1.8 = 27 / 5 by norm_num]
    linarith
  have hsev : ∀ b : Bool,
      methimazoleSeverity (ft4 / ft4ULNOf p) b = (.severe, []) := by
    intro b
    unfold methimazoleSeverity
    rw [hULN]
    rw [if_pos ⟨hr2, hr3⟩]
  have hsel : ∀ b1 b2 : Bool,
      methimazoleDoseSelection p .severe b1 b2 =
        (21, 4, [.pediatricSevereDosing]) := by
    intro b1 b2
    unfold methimazoleDoseSelection
    rw [hage, hw]
    norm_num
  unfold calculateMethimazoleDose
  rw [htsh]
  dsimp only
  rw [if_neg (not_lt.mpr hlow), hmiss]
  rw [if_neg Bool.false_ne_true]
  rw [hhyp]
  rw [if_neg (show ¬((!true) = true) from by simp)]
  rw [hchosen]
  dsimp only
  rw [hsev, hsel]
  refine ⟨_, rfl, ?_⟩
  norm_num [roundClampMethimazole, jsRound]

/-- Witness for C9 at FT4 = 4 ng/dl (ratio 2.22) and FT3 = 3 pg/ml. -/
theorem methimazole_pediatric_severe_dose_witness :
    ∃ r, calculateMethimazoleDose
      { age := some 10, weightKg := some 30, currentTSH := some 0.05,
        currentFT4 := some 4, currentFT3 := some 3 } = .ok r ∧ r.dose = 20 :=
  methimazole_pediatric_severe_dose _ 0.05 4 3 rfl rfl rfl (by norm_num)
    rfl rfl (by norm_num) (by norm_num)
